import Mathlib

/-!
Shallow embedding of `src/first.py` (PharmaPal pharmacy chatbot).

The repository's only executable logic of interest is the five tool
handlers (`check_stock`, `get_drug_info`, `verify_prescription`,
`place_order`, `check_order_status`) operating on the module-level mock
dictionaries.  Python dictionaries preserve insertion order, so each
dictionary is embedded as an association list; dictionary lookup,
insertion and in-place update are modelled by the `dict*` helpers below
with Python's semantics (first matching key; overwrite on insert of an
existing key).  Python string case conversion (`str.lower` / `str.upper`,
ASCII range as in the data here) is modelled character-wise on the
underlying character list.  Python truthiness of a string-or-None value
(`not found_med`, `if prescription_ref`) is modelled explicitly: `None`
and the empty string are falsy.  The fallible conversion `int(quantity)`
inside `try/except` is modelled by `pyIntConv` returning `Option Int`
(`none` for the `ValueError`/`TypeError` cases).  The nondeterministic
inputs `str(uuid.uuid4())[:8]` and `datetime.now().isoformat()` are
passed to `place_order` as explicit oracle arguments `new_order_id` and
`now`.  Each handler returns a record mirroring the ad-hoc
`p.ToolResult` payload: one `Option` field per data key that appears
only on some branches, the `feedback` string, and the `is_error` flag
(absent metadata key means `false`).
-/

/-- Model of Python `str.lower()` restricted to the ASCII data used here:
the character list of the string, lower-cased character-wise. -/
def pyLower (s : String) : List Char :=
  s.data.map Char.toLower

/-- Model of Python `str.upper()` restricted to the ASCII data used here. -/
def pyUpper (s : String) : String :=
  ⟨s.data.map Char.toUpper⟩

/-- Containment of `needle` in `hay` as a contiguous substring; models the
Python expression `needle in hay` on strings. -/
def isSubstr (needle hay : List Char) : Bool :=
  hay.tails.any (fun t => needle.isPrefixOf t)

/-- Case-insensitive string equality: models `a.lower() == b.lower()`. -/
def ciEq (a b : String) : Bool :=
  pyLower a == pyLower b

/-- Case-insensitive substring test: models `a.lower() in b.lower()`. -/
def ciSub (a b : String) : Bool :=
  isSubstr (pyLower a) (pyLower b)

/-- Python truthiness of the loop variable `found_med` (either `None` or a
string paired with its data): `None` and `""` are falsy. -/
def pyTruthyFound {α : Type} : Option (String × α) → Bool
  | none => false
  | some (n, _) => !(n == "")

/-- The entity-lookup loop shared verbatim by `check_stock`,
`get_drug_info` and `place_order`:

    for name, data in table.items():
        if query.lower() == name.lower():
             found_med = name; found_data = data; break
        elif query.lower() in name.lower() and not found_med:
            found_med = name; found_data = data

`found` carries the current `(found_med, found_data)` pair. -/
def lookupGo {α : Type} (q : String) :
    List (String × α) → Option (String × α) → Option (String × α)
  | [], found => found
  | (name, data) :: rest, found =>
    if ciEq q name then some (name, data)
    else if ciSub q name && !(pyTruthyFound found) then
      lookupGo q rest (some (name, data))
    else lookupGo q rest found

/-- Entity lookup over an ordered table, starting from `found_med = None`. -/
def entityLookup {α : Type} (q : String) (entries : List (String × α)) :
    Option (String × α) :=
  lookupGo q entries none

/-- Python `dict.get(key)`: the value stored at the first (unique, in a
real dict) occurrence of the key. -/
def dictGet {α : Type} (d : List (String × α)) (k : String) : Option α :=
  (d.find? (fun e => e.1 == k)).map (fun e => e.2)

/-- Python `dict.get(key, False)` on a `str -> bool` dict. -/
def dictGetD (d : List (String × Bool)) (k : String) : Bool :=
  (dictGet d k).getD false

/-- Python `d[key] = value`: overwrite the existing key in place, else
append a new binding at the end. -/
def dictInsert {α : Type} (k : String) (v : α) :
    List (String × α) → List (String × α)
  | [] => [(k, v)]
  | (k', v') :: rest =>
    if k' == k then (k, v) :: rest else (k', v') :: dictInsert k v rest

/-- An inventory value: `{"stock": ..., "requires_prescription": ...}`. -/
structure InvData where
  stock : Int
  requires_prescription : Bool
  deriving DecidableEq

/-- A drug-information value of `mock_drug_info`. -/
structure DrugInfo where
  usage : String
  side_effects : String
  contraindications : String
  notes : String
  deriving DecidableEq

/-- An order value stored in `mock_orders`. -/
structure Order where
  medication : String
  quantity : Int
  prescription_ref : Option String
  status : String
  timestamp : String
  deriving DecidableEq

/-- The mutable part of the Domain Data Store touched by `place_order`
(`mock_inventory`, `mock_orders`) together with the read-only
`mock_prescriptions` table it consults. -/
structure Store where
  inventory : List (String × InvData)
  orders : List (String × Order)
  prescriptions : List (String × Bool)
  deriving DecidableEq

/-- The initial `mock_inventory` dictionary. -/
def mock_inventory : List (String × InvData) :=
  [("Paracetamol 500mg Tablets", ⟨100, false⟩),
   ("Amoxicillin 250mg Capsules", ⟨50, true⟩),
   ("Ibuprofen 200mg Tablets", ⟨0, false⟩),
   ("Lisinopril 10mg Tablets", ⟨75, true⟩)]

/-- The initial `mock_drug_info` dictionary. -/
def mock_drug_info : List (String × DrugInfo) :=
  [("Paracetamol 500mg Tablets",
    ⟨"For mild to moderate pain relief and fever reduction.",
     "Generally well-tolerated. Rare side effects include allergic reactions.",
     "Severe liver disease.",
     "Follow dosage instructions carefully."⟩),
   ("Amoxicillin 250mg Capsules",
    ⟨"Antibiotic for treating bacterial infections.",
     "Common: Nausea, rash, diarrhea. Seek medical attention for severe reactions.",
     "Known allergy to penicillin.",
     "Complete the full course as prescribed by your doctor."⟩),
   ("Lisinopril 10mg Tablets",
    ⟨"Treats high blood pressure and heart failure.",
     "Common: Dizziness, cough, headache. Report persistent side effects to your doctor.",
     "History of angioedema, pregnancy.",
     "Take as directed by your healthcare provider."⟩)]

/-- The initial (empty) `mock_orders` dictionary. -/
def mock_orders : List (String × Order) := []

/-- The `mock_prescriptions` dictionary. -/
def mock_prescriptions : List (String × Bool) :=
  [("RX12345", true), ("RX67890", false)]

/-- The Domain Data Store at process start. -/
def mockStore : Store :=
  ⟨mock_inventory, mock_orders, mock_prescriptions⟩

/-- Result payload of `check_stock`: `Option` fields appear only on the
branches that put the key in the `data` dict. -/
structure CheckStockResult where
  requires_prescription : Option Bool := none
  in_stock : Option Bool := none
  medication_name : Option String := none
  stock_count : Option Int := none
  medication_found : Option Bool := none
  feedback : String
  is_error : Bool := false
  deriving DecidableEq

/-- The `check_stock` tool. -/
def check_stock (inventory : List (String × InvData))
    (medication_name : String) : CheckStockResult :=
  match entityLookup medication_name inventory with
  | some (found_med, stock_data) =>
    let stock := stock_data.stock
    let requires_rx := stock_data.requires_prescription
    let rx_status :=
      if requires_rx then "Requires prescription."
      else "Does not require prescription."
    if stock > 0 then
      { requires_prescription := some requires_rx, in_stock := some true,
        medication_name := some found_med, stock_count := some stock,
        feedback := s!"\x27{found_med}\x27 is in stock ({stock} units available). {rx_status}" }
    else
      { requires_prescription := some requires_rx, in_stock := some false,
        medication_name := some found_med,
        feedback := s!"\x27{found_med}\x27 is currently out of stock. {rx_status}",
        is_error := true }
  | none =>
    { medication_found := some false,
      feedback := s!"Sorry, I couldn\x27t find \x27{medication_name}\x27 in our inventory system.",
      is_error := true }

/-- Result payload of `get_drug_info`. -/
structure DrugInfoResult where
  info_found : Bool
  feedback : String
  is_error : Bool := false
  deriving DecidableEq

/-- The `get_drug_info` tool.  The four `info_data.get(..., 'N/A')`
accesses read fields that are present on every record of
`mock_drug_info`, so they are plain field projections here. -/
def get_drug_info (drug_info : List (String × DrugInfo))
    (medication_name : String) : DrugInfoResult :=
  match entityLookup medication_name drug_info with
  | some (found_med, info_data) =>
    let u := info_data.usage
    let se := info_data.side_effects
    let ci := info_data.contraindications
    let no := info_data.notes
    let info_string :=
      s!"Information for \x27{found_med}\x27:\n- Usage: {u}\n- Common Side Effects: {se}\n- Contraindications: {ci}\n- Notes: {no}\n\n**Disclaimer:** This is not medical advice. Always consult your doctor or pharmacist for medical guidance."
    { info_found := true, feedback := info_string }
  | none =>
    { info_found := false,
      feedback := s!"Sorry, I don\x27t have detailed information available for \x27{medication_name}\x27.",
      is_error := true }

/-- Result payload of `verify_prescription`. -/
structure VerifyResult where
  verified : Bool
  feedback : String
  is_error : Bool := false
  deriving DecidableEq

/-- The `verify_prescription` tool. -/
def verify_prescription (prescriptions : List (String × Bool))
    (prescription_ref : String) : VerifyResult :=
  let ref_upper := pyUpper prescription_ref
  let is_valid := dictGetD prescriptions ref_upper
  if is_valid then
    { verified := true, feedback := s!"Prescription \x27{ref_upper}\x27 is valid." }
  else
    { verified := false,
      feedback := s!"I couldn\x27t verify prescription reference \x27{ref_upper}\x27. Please double-check the reference number.",
      is_error := true }

/-- Outcomes of the Python conversion `int(quantity)` on the incoming
argument: either the integer it yields, or the values on which it raises
`ValueError`/`TypeError` (non-numeric strings, `None`, ...). -/
inductive PyQty where
  | int (n : Int)
  | invalid
  deriving DecidableEq

/-- Evaluation of `int(quantity)` with its exception turned into `none`. -/
def pyIntConv : PyQty → Option Int
  | .int n => some n
  | .invalid => none

/-- Model of `prescription_ref.upper() if prescription_ref else None`:
Python truthiness makes both `None` and `""` fall to `None`. -/
def rxUpper : Option String → Option String
  | none => none
  | some s => if s == "" then none else some (pyUpper s)

/-- Result payload of `place_order`. -/
structure PlaceOrderResult where
  order_placed : Bool
  reason : Option String := none
  order_id : Option String := none
  feedback : String
  is_error : Bool := false
  deriving DecidableEq

/-- Model of `mock_inventory[found_med]["stock"] -= quantity_int`: mutate
the (in a Python dict unique, here the first) binding of `found_med`. -/
def decStock (found_med : String) (quantity_int : Int) :
    List (String × InvData) → List (String × InvData)
  | [] => []
  | (name, d) :: rest =>
    if name == found_med then
      (name, { d with stock := d.stock - quantity_int }) :: rest
    else (name, d) :: decStock found_med quantity_int rest

/-- Tail of `place_order` after all validation passed: create the order
under the fresh id, decrement the matched medication's stock in place,
and report success. -/
def commitOrder (store : Store) (found_med : String) (quantity_int : Int)
    (prescription_ref_upper : Option String) (order_id now : String) :
    PlaceOrderResult × Store :=
  let order : Order :=
    { medication := found_med, quantity := quantity_int,
      prescription_ref := prescription_ref_upper,
      status := "Processing", timestamp := now }
  ({ order_placed := true, order_id := some order_id,
     feedback := s!"Order placed successfully! Your Order ID is {order_id}. Current status: Processing." },
   { store with
     orders := dictInsert order_id order store.orders,
     inventory := decStock found_med quantity_int store.inventory })

/-- The `place_order` tool.  `new_order_id` stands for the random
`str(uuid.uuid4())[:8]` and `now` for `datetime.now().isoformat()`. -/
def place_order (store : Store) (medication_name : String) (quantity : PyQty)
    (prescription_ref : Option String) (new_order_id now : String) :
    PlaceOrderResult × Store :=
  match entityLookup medication_name store.inventory with
  | none =>
    ({ order_placed := false, reason := some ("Medication not found"),
       feedback := s!"Cannot place order. Medication \x27{medication_name}\x27 not found.",
       is_error := true }, store)
  | some (found_med, stock_data) =>
    match pyIntConv quantity with
    | none =>
      ({ order_placed := false, reason := some ("Invalid quantity"),
         feedback := "Cannot place order. Please provide a valid positive number for the quantity.",
         is_error := true }, store)
    | some quantity_int =>
      if quantity_int ≤ 0 then
        ({ order_placed := false, reason := some ("Invalid quantity"),
           feedback := "Cannot place order. Please provide a valid positive number for the quantity.",
           is_error := true }, store)
      else if stock_data.stock < quantity_int then
        let st := stock_data.stock
        ({ order_placed := false, reason := some ("Insufficient stock"),
           feedback := s!"Cannot place order. Insufficient stock for \x27{found_med}\x27. Available: {st}.",
           is_error := true }, store)
      else
        let prescription_ref_upper := rxUpper prescription_ref
        if stock_data.requires_prescription then
          match prescription_ref_upper with
          | none =>
            ({ order_placed := false, reason := some ("Missing prescription"),
               feedback := s!"Cannot place order. \x27{found_med}\x27 requires a prescription reference, but none was provided.",
               is_error := true }, store)
          | some ref_u =>
            if dictGetD store.prescriptions ref_u then
              commitOrder store found_med quantity_int prescription_ref_upper
                (pyUpper new_order_id) now
            else
              ({ order_placed := false, reason := some ("Prescription invalid"),
                 feedback := s!"Cannot place order. Prescription reference \x27{ref_u}\x27 could not be verified.",
                 is_error := true }, store)
        else
          commitOrder store found_med quantity_int prescription_ref_upper
            (pyUpper new_order_id) now

/-- Result payload of `check_order_status`. -/
structure OrderStatusResult where
  status_found : Bool
  feedback : String
  is_error : Bool := false
  deriving DecidableEq

/-- The `check_order_status` tool. -/
def check_order_status (orders : List (String × Order)) (order_id : String) :
    OrderStatusResult :=
  let order_id_upper := pyUpper order_id
  match dictGet orders order_id_upper with
  | some order =>
    let st := order.status
    let q := order.quantity
    let med := order.medication
    { status_found := true,
      feedback := s!"Order {order_id_upper} Status: {st}. Placed for {q}x \x27{med}\x27." }
  | none =>
    { status_found := false,
      feedback := s!"Sorry, I could not find an order with ID \x27{order_id_upper}\x27. Please check the ID.",
      is_error := true }

/-- Validation outcome written after the specification's words, for
comparison with `place_order`: run the checks in the fixed order
"medication exists, then quantity is a positive integer, then sufficient
stock, then (only if the medication requires a prescription) reference
present and verified", and report the first check that fails (`none`
when all pass). -/
def specValidationReason (store : Store) (medication_name : String)
    (quantity : PyQty) (prescription_ref : Option String) : Option String :=
  match entityLookup medication_name store.inventory with
  | none => some ("Medication not found")
  | some (_, stock_data) =>
    match pyIntConv quantity with
    | none => some ("Invalid quantity")
    | some quantity_int =>
      if quantity_int ≤ 0 then some ("Invalid quantity")
      else if stock_data.stock < quantity_int then some ("Insufficient stock")
      else if stock_data.requires_prescription then
        match rxUpper prescription_ref with
        | none => some ("Missing prescription")
        | some ref_u =>
          if dictGetD store.prescriptions ref_u then none
          else some ("Prescription invalid")
      else none

/-! Helper lemmas about the embedded operations. -/

theorem char_toUpper_toNat (c : Char) (h : 97 ≤ c.toNat) (h2 : c.toNat ≤ 122) :
    (Char.toUpper c).toNat = c.toNat - 32 := by
  simp only [Char.toUpper]
  rw [if_pos ⟨h, h2⟩]
  have hv : Nat.isValidChar (c.toNat - 32) := Or.inl (by omega)
  simp only [Char.ofNat, hv, dif_pos]
  simp [Char.toNat, Char.ofNatAux, UInt32.toNat, BitVec.toNat_ofNatLt]

theorem char_toUpper_eq_self (c : Char) (h : ¬ (97 ≤ c.toNat ∧ c.toNat ≤ 122)) :
    Char.toUpper c = c := by
  rw [Char.toUpper]
  exact if_neg (by omega)

theorem char_toUpper_idem (c : Char) : c.toUpper.toUpper = c.toUpper := by
  by_cases h : 97 ≤ c.toNat ∧ c.toNat ≤ 122
  · have ht := char_toUpper_toNat c h.1 h.2
    exact char_toUpper_eq_self _ (by omega)
  · rw [char_toUpper_eq_self c h]
    exact char_toUpper_eq_self c h

theorem pyUpper_idem (s : String) : pyUpper (pyUpper s) = pyUpper s := by
  simp only [pyUpper, List.map_map]
  exact congrArg String.mk (List.map_congr_left (fun c _ => char_toUpper_idem c))

theorem isSubstr_nil (l : List Char) : isSubstr l [] = true ↔ l = [] := by
  cases l <;> simp [isSubstr, List.isPrefixOf]

theorem ciEq_of_ciSub_empty (q : String) (h : ciSub q "" = true) :
    ciEq q "" = true := by
  have hq : pyLower q = [] := by
    have : isSubstr (pyLower q) (pyLower "") = true := h
    rwa [show pyLower "" = [] from rfl, isSubstr_nil] at this
  simp [ciEq, hq, show pyLower "" = [] from rfl]

theorem lookupGo_some_acc {α : Type} (q n : String) (d : α)
    (es : List (String × α)) (hne : (n == "") = false) :
    lookupGo q es (some (n, d)) =
      ((es.find? fun x => ciEq q x.1).orElse (fun _ => some (n, d))) := by
  induction es with
  | nil => simp [lookupGo, Option.orElse]
  | cons hd tl ih =>
    obtain ⟨name, data⟩ := hd
    by_cases hc : ciEq q name
    · simp [lookupGo, hc, Option.orElse]
    · simp [lookupGo, hc, pyTruthyFound, hne, ih]

theorem lookupGo_none_eq {α : Type} (q : String) (es : List (String × α)) :
    lookupGo q es none =
      ((es.find? fun x => ciEq q x.1).orElse
        (fun _ => es.find? fun x => ciSub q x.1)) := by
  induction es with
  | nil => simp [lookupGo, Option.orElse]
  | cons hd tl ih =>
    obtain ⟨name, data⟩ := hd
    by_cases hc : ciEq q name
    · simp [lookupGo, hc, Option.orElse]
    · by_cases hs : ciSub q name
      · have hne : (name == "") = false := by
          rcases hb : name == "" with _ | _
          · rfl
          · exfalso
            have hemp : name = "" := beq_iff_eq.mp hb
            rw [hemp] at hs hc
            exact hc (ciEq_of_ciSub_empty q hs)
        rw [lookupGo, if_neg (by simp [hc]), if_pos (by simp [hs, pyTruthyFound])]
        rw [lookupGo_some_acc q name data tl hne]
        simp [hc, hs]
      · simp [lookupGo, hc, hs, pyTruthyFound, ih]

theorem find?_key_of_pred {α : Type} (p : String → Bool) (es : List (String × α))
    (n : String) (d : α) (h : es.find? (fun e => p e.1) = some (n, d)) :
    es.find? (fun e => e.1 == n) = some (n, d) := by
  induction es with
  | nil => simp at h
  | cons hd tl ih =>
    obtain ⟨k, v⟩ := hd
    by_cases hp : p k
    · rw [List.find?_cons_of_pos _ (by simpa using hp)] at h
      have hk : k = n := congrArg Prod.fst (Option.some.inj h)
      have hv : v = d := congrArg Prod.snd (Option.some.inj h)
      subst hk; subst hv
      exact List.find?_cons_of_pos _ (by simp)
    · rw [List.find?_cons_of_neg _ (by simpa using hp)] at h
      have hpn : p n = true := by simpa using List.find?_some h
      have hk : (k == n) = false := by
        rcases hb : k == n with _ | _
        · rfl
        · exact absurd (beq_iff_eq.mp hb ▸ hpn) (by simpa using hp)
      rw [List.find?_cons_of_neg _ (by simp [hk])]
      exact ih h

theorem entityLookup_find?_key {α : Type} (q n : String) (d : α)
    (es : List (String × α)) (h : entityLookup q es = some (n, d)) :
    es.find? (fun e => e.1 == n) = some (n, d) := by
  rw [entityLookup, lookupGo_none_eq] at h
  cases hf : es.find? (fun x => ciEq q x.1) with
  | some e =>
    rw [hf] at h
    simp only [Option.orElse] at h
    exact find?_key_of_pred (fun s => ciEq q s) es n d (h ▸ hf)
  | none =>
    rw [hf] at h
    simp only [Option.orElse] at h
    exact find?_key_of_pred (fun s => ciSub q s) es n d h

theorem dictGet_dictInsert_self {α : Type} (k : String) (v : α)
    (d : List (String × α)) : dictGet (dictInsert k v d) k = some v := by
  induction d with
  | nil => simp [dictGet, dictInsert]
  | cons hd tl ih =>
    obtain ⟨k', v'⟩ := hd
    by_cases hk : (k' == k) = true
    · simp [dictInsert, hk, dictGet]
    · have hb : (k' == k) = false := by simpa using hk
      have h1 : dictInsert k v ((k', v') :: tl) = (k', v') :: dictInsert k v tl := by
        simp [dictInsert, hb]
      rw [h1]
      show (((k', v') :: dictInsert k v tl).find? (fun e => e.1 == k)).map (fun e => e.2) = some v
      rw [List.find?_cons_of_neg _ (by simp [hb])]
      exact ih

theorem dictGet_decStock_self (n : String) (q : Int)
    (es : List (String × InvData)) (d : InvData)
    (h : es.find? (fun x => x.1 == n) = some (n, d)) :
    dictGet (decStock n q es) n = some { d with stock := d.stock - q } := by
  induction es with
  | nil => simp at h
  | cons hd tl ih =>
    obtain ⟨k, v⟩ := hd
    by_cases hk : (k == n) = true
    · have hkn : k = n := beq_iff_eq.mp hk
      rw [List.find?_cons_of_pos _ (by simpa using hk)] at h
      have hv : v = d := congrArg Prod.snd (Option.some.inj h)
      subst hv; subst hkn
      simp [decStock, dictGet]
    · rw [List.find?_cons_of_neg _ (by simpa using hk)] at h
      have hb : (k == n) = false := by simpa using hk
      have h1 : decStock n q ((k, v) :: tl) = (k, v) :: decStock n q tl := by
        simp [decStock, hb]
      rw [h1]
      show (((k, v) :: decStock n q tl).find? (fun e => e.1 == n)).map (fun e => e.2)
        = some { d with stock := d.stock - q }
      rw [List.find?_cons_of_neg _ (by simp [hb])]
      exact ih h

theorem mem_decStock (n : String) (q : Int) (es : List (String × InvData))
    (e : String × InvData) (h : e ∈ decStock n q es) :
    e ∈ es ∨ ∃ d0, es.find? (fun x => x.1 == n) = some (n, d0) ∧
      e = (n, { d0 with stock := d0.stock - q }) := by
  induction es with
  | nil => simp [decStock] at h
  | cons hd tl ih =>
    obtain ⟨k, v⟩ := hd
    by_cases hk : (k == n) = true
    · have hkn : k = n := beq_iff_eq.mp hk
      subst hkn
      rw [decStock, if_pos (by simp)] at h
      rcases List.mem_cons.mp h with h1 | h2
      · right
        exact ⟨v, List.find?_cons_of_pos _ (by simp), h1⟩
      · exact Or.inl (List.mem_cons_of_mem _ h2)
    · have hb : (k == n) = false := by simpa using hk
      rw [decStock, if_neg (by simp [hb])] at h
      rcases List.mem_cons.mp h with h1 | h2
      · exact Or.inl (h1 ▸ List.mem_cons_self _ _)
      · rcases ih h2 with h3 | ⟨d0, hf, he⟩
        · exact Or.inl (List.mem_cons_of_mem _ h3)
        · right
          exact ⟨d0, by rw [List.find?_cons_of_neg _ (by simp [hb])]; exact hf, he⟩

theorem commitOrder_fst (store : Store) (found : String) (qi : Int)
    (rxu : Option String) (oid now : String) :
    (commitOrder store found qi rxu oid now).1.order_placed = true := rfl

theorem commitOrder_snd (store : Store) (found : String) (qi : Int)
    (rxu : Option String) (oid now : String) :
    (commitOrder store found qi rxu oid now).2 =
      { store with
        orders := dictInsert oid ⟨found, qi, rxu, "Processing", now⟩ store.orders,
        inventory := decStock found qi store.inventory } := rfl

theorem place_order_not_placed (store : Store) (mn : String) (qty : PyQty)
    (rx : Option String) (oid now : String)
    (h : (place_order store mn qty rx oid now).1.order_placed = false) :
    (place_order store mn qty rx oid now).1.is_error = true ∧
    (place_order store mn qty rx oid now).2 = store := by
  cases hl : entityLookup mn store.inventory with
  | none => simp [place_order, hl]
  | some fd =>
    obtain ⟨found, d⟩ := fd
    cases hq : pyIntConv qty with
    | none => simp [place_order, hl, hq]
    | some qi =>
      by_cases hq0 : qi ≤ 0
      · simp [place_order, hl, hq, hq0]
      · by_cases hst : d.stock < qi
        · simp [place_order, hl, hq, hq0, hst]
        · by_cases hrx : d.requires_prescription = true
          · cases hru : rxUpper rx with
            | none => simp [place_order, hl, hq, hq0, hst, hrx, hru]
            | some r =>
              by_cases hv : dictGetD store.prescriptions r = true
              · exfalso
                simp [place_order, hl, hq, hq0, hst, hrx, hru, hv, commitOrder] at h
              · simp [place_order, hl, hq, hq0, hst, hrx, hru, hv]
          · exfalso
            simp [place_order, hl, hq, hq0, hst, hrx, commitOrder] at h

theorem place_order_placed (store : Store) (mn : String) (qty : PyQty)
    (rx : Option String) (oid now : String)
    (h : (place_order store mn qty rx oid now).1.order_placed = true) :
    ∃ found d qi,
      entityLookup mn store.inventory = some (found, d) ∧
      pyIntConv qty = some qi ∧ 0 < qi ∧ qi ≤ d.stock ∧
      place_order store mn qty rx oid now =
        commitOrder store found qi (rxUpper rx) (pyUpper oid) now := by
  cases hl : entityLookup mn store.inventory with
  | none => exfalso; simp [place_order, hl] at h
  | some fd =>
    obtain ⟨found, d⟩ := fd
    cases hq : pyIntConv qty with
    | none => exfalso; simp [place_order, hl, hq] at h
    | some qi =>
      by_cases hq0 : qi ≤ 0
      · exfalso; simp [place_order, hl, hq, hq0] at h
      · by_cases hst : d.stock < qi
        · exfalso; simp [place_order, hl, hq, hq0, hst] at h
        · refine ⟨found, d, qi, rfl, rfl, by omega, by omega, ?_⟩
          by_cases hrx : d.requires_prescription = true
          · cases hru : rxUpper rx with
            | none => exfalso; simp [place_order, hl, hq, hq0, hst, hrx, hru] at h
            | some r =>
              by_cases hv : dictGetD store.prescriptions r = true
              · simp [place_order, hl, hq, hq0, hst, hrx, hru, hv]
              · exfalso; simp [place_order, hl, hq, hq0, hst, hrx, hru, hv] at h
          · simp [place_order, hl, hq, hq0, hst, hrx]

/-! Claim theorems. -/

/-- C1: whenever any validation step of `place_order` fails (equivalently,
the returned result has `order_placed = false`), the result carries
`is_error = true` and the Domain Data Store is returned unchanged — no
inventory stock count is decremented and no order is created.  In
particular, ordering 1 unit of "Ibuprofen 200mg Tablets" (stock 0) fails
with reason "Insufficient stock" and leaves the store unchanged. -/
theorem place_order_failure_all_or_nothing
    (store : Store) (medication_name : String) (quantity : PyQty)
    (prescription_ref : Option String) (new_order_id now : String)
    (h : (place_order store medication_name quantity prescription_ref
            new_order_id now).1.order_placed = false) :
    (place_order store medication_name quantity prescription_ref
        new_order_id now).1.is_error = true ∧
    (place_order store medication_name quantity prescription_ref
        new_order_id now).2 = store ∧
    (place_order mockStore "Ibuprofen 200mg Tablets" (PyQty.int 1) none
        new_order_id now).1.order_placed = false ∧
    (place_order mockStore "Ibuprofen 200mg Tablets" (PyQty.int 1) none
        new_order_id now).1.is_error = true ∧
    (place_order mockStore "Ibuprofen 200mg Tablets" (PyQty.int 1) none
        new_order_id now).1.reason = some ("Insufficient stock") ∧
    (place_order mockStore "Ibuprofen 200mg Tablets" (PyQty.int 1) none
        new_order_id now).2 = mockStore := by
  obtain ⟨h1, h2⟩ := place_order_not_placed store medication_name quantity
    prescription_ref new_order_id now h
  exact ⟨h1, h2, rfl, rfl, rfl, rfl⟩

/-- Witness for C1: the Ibuprofen instance of the theorem, with every
hypothesis discharged by evaluation. -/
theorem place_order_failure_all_or_nothing_witness :
    (place_order mockStore "Ibuprofen 200mg Tablets" (PyQty.int 1) none
        "A1B2C3D4" "2026-10-12T00:00:00").1.is_error = true ∧
    (place_order mockStore "Ibuprofen 200mg Tablets" (PyQty.int 1) none
        "A1B2C3D4" "2026-10-12T00:00:00").2 = mockStore ∧
    (place_order mockStore "Ibuprofen 200mg Tablets" (PyQty.int 1) none
        "A1B2C3D4" "2026-10-12T00:00:00").1.order_placed = false ∧
    (place_order mockStore "Ibuprofen 200mg Tablets" (PyQty.int 1) none
        "A1B2C3D4" "2026-10-12T00:00:00").1.is_error = true ∧
    (place_order mockStore "Ibuprofen 200mg Tablets" (PyQty.int 1) none
        "A1B2C3D4" "2026-10-12T00:00:00").1.reason = some ("Insufficient stock") ∧
    (place_order mockStore "Ibuprofen 200mg Tablets" (PyQty.int 1) none
        "A1B2C3D4" "2026-10-12T00:00:00").2 = mockStore :=
  place_order_failure_all_or_nothing mockStore "Ibuprofen 200mg Tablets"
    (PyQty.int 1) none "A1B2C3D4" "2026-10-12T00:00:00" (by decide)

/-- C4: for every medication of the inventory catalog, `check_stock`
reports `in_stock = true` exactly when its stock count is positive, and
echoes the catalog's `requires_prescription` flag. -/
theorem check_stock_in_stock_iff :
    ∀ e ∈ mock_inventory,
      (check_stock mock_inventory e.1).in_stock = some (decide (0 < e.2.stock)) ∧
      (check_stock mock_inventory e.1).requires_prescription =
        some e.2.requires_prescription := by
  decide

/-- Witness for C4 at the catalog entry for Paracetamol. -/
theorem check_stock_in_stock_iff_witness :
    (check_stock mock_inventory
        (("Paracetamol 500mg Tablets", (⟨100, false⟩ : InvData))).1).in_stock =
      some (decide (0 < (("Paracetamol 500mg Tablets", (⟨100, false⟩ : InvData))).2.stock)) ∧
    (check_stock mock_inventory
        (("Paracetamol 500mg Tablets", (⟨100, false⟩ : InvData))).1).requires_prescription =
      some (("Paracetamol 500mg Tablets", (⟨100, false⟩ : InvData))).2.requires_prescription :=
  check_stock_in_stock_iff ("Paracetamol 500mg Tablets", ⟨100, false⟩) (by decide)

/-- C5 as stated is false on the code: "Ibuprofen 200mg Tablets" is
matched and out of stock, yet its result omits the stock count — the
`data` dict of the out-of-stock branch has no `stock_count` key. -/
theorem check_stock_out_of_stock_omits_count :
    (check_stock mock_inventory "Ibuprofen 200mg Tablets").medication_name =
      some ("Ibuprofen 200mg Tablets") ∧
    (check_stock mock_inventory "Ibuprofen 200mg Tablets").in_stock = some false ∧
    (check_stock mock_inventory "Ibuprofen 200mg Tablets").stock_count = none := by
  decide

/-- C5 (amended): for every query matching a medication, the result
carries the in-stock indication, the `requires_prescription` flag and
the matched medication name; the stock count is present exactly when the
medication is in stock (it is omitted in the out-of-stock result). -/
theorem check_stock_found_result_fields
    (inventory : List (String × InvData)) (q n : String) (d : InvData)
    (h : entityLookup q inventory = some (n, d)) :
    (check_stock inventory q).in_stock = some (decide (0 < d.stock)) ∧
    (check_stock inventory q).requires_prescription =
      some d.requires_prescription ∧
    (check_stock inventory q).medication_name = some n ∧
    ((check_stock inventory q).stock_count).isSome = decide (0 < d.stock) := by
  by_cases hs : 0 < d.stock
  · simp [check_stock, h, hs]
  · simp [check_stock, h, hs]

/-- Witness for C5's amended theorem at the out-of-stock Ibuprofen entry. -/
theorem check_stock_found_result_fields_witness :
    (check_stock mock_inventory "Ibuprofen 200mg Tablets").in_stock =
      some (decide (0 < (⟨0, false⟩ : InvData).stock)) ∧
    (check_stock mock_inventory "Ibuprofen 200mg Tablets").requires_prescription =
      some (⟨0, false⟩ : InvData).requires_prescription ∧
    (check_stock mock_inventory "Ibuprofen 200mg Tablets").medication_name =
      some ("Ibuprofen 200mg Tablets") ∧
    ((check_stock mock_inventory "Ibuprofen 200mg Tablets").stock_count).isSome =
      decide (0 < (⟨0, false⟩ : InvData).stock) :=
  check_stock_found_result_fields mock_inventory "Ibuprofen 200mg Tablets"
    "Ibuprofen 200mg Tablets" ⟨0, false⟩ (by decide)

/-- C6: the entity lookup shared by `check_stock`, `get_drug_info` and
`place_order` is the two-phase policy: the first case-insensitive exact
key match if one exists (even when a substring match occurs earlier in
iteration order), otherwise the first case-insensitive substring match
in iteration order, otherwise not found. -/
theorem entity_lookup_two_phase {α : Type} (q : String)
    (entries : List (String × α)) :
    entityLookup q entries =
      ((entries.find? fun e => ciEq q e.1).orElse
        (fun _ => entries.find? fun e => ciSub q e.1)) :=
  lookupGo_none_eq q entries

/-- C9: `verify_prescription` is a case-insensitive exact key lookup —
its whole result depends on the reference only up to letter case — and
the lowercase query "rx12345" verifies because the record "RX12345" is
valid. -/
theorem verify_prescription_case_insensitive :
    (∀ (prescriptions : List (String × Bool)) (r1 r2 : String),
        pyUpper r1 = pyUpper r2 →
        verify_prescription prescriptions r1 =
          verify_prescription prescriptions r2) ∧
    (verify_prescription mock_prescriptions "rx12345").verified = true := by
  constructor
  · intro ps r1 r2 h
    simp only [verify_prescription, h]
  · decide

/-- Witness for C9: "rx12345" and "RX12345" get identical results. -/
theorem verify_prescription_case_insensitive_witness :
    verify_prescription mock_prescriptions "rx12345" =
      verify_prescription mock_prescriptions "RX12345" :=
  verify_prescription_case_insensitive.1 mock_prescriptions "rx12345" "RX12345"
    (by decide)

/-- C3: `place_order` runs its checks in the fixed order "medication
exists, quantity is a positive integer, sufficient stock, then (only for
prescription medications) reference present and verified", and the
returned reason is the first check in that order that fails —
`place_order` agrees pointwise with `specValidationReason`, the
transcription of the specification's ordering.  In particular the
Amoxicillin order with known-invalid prescription "RX67890" fails with
reason "Prescription invalid". -/
theorem place_order_validation_order
    (store : Store) (medication_name : String) (quantity : PyQty)
    (prescription_ref : Option String) (new_order_id now : String) :
    (place_order store medication_name quantity prescription_ref
        new_order_id now).1.reason =
      specValidationReason store medication_name quantity prescription_ref ∧
    (place_order store medication_name quantity prescription_ref
        new_order_id now).1.order_placed =
      (specValidationReason store medication_name quantity
        prescription_ref).isNone ∧
    (place_order mockStore "Amoxicillin 250mg Capsules" (PyQty.int 2)
        (some ("RX67890")) new_order_id now).1.reason =
      some ("Prescription invalid") ∧
    (place_order mockStore "Amoxicillin 250mg Capsules" (PyQty.int 2)
        (some ("RX67890")) new_order_id now).1.is_error = true := by
  have key :
      (place_order store medication_name quantity prescription_ref
          new_order_id now).1.reason =
        specValidationReason store medication_name quantity prescription_ref ∧
      (place_order store medication_name quantity prescription_ref
          new_order_id now).1.order_placed =
        (specValidationReason store medication_name quantity
          prescription_ref).isNone := by
    cases hl : entityLookup medication_name store.inventory with
    | none => simp [place_order, specValidationReason, hl]
    | some fd =>
      obtain ⟨found, d⟩ := fd
      cases hq : pyIntConv quantity with
      | none => simp [place_order, specValidationReason, hl, hq]
      | some qi =>
        by_cases hq0 : qi ≤ 0
        · simp [place_order, specValidationReason, hl, hq, hq0]
        · by_cases hst : d.stock < qi
          · simp [place_order, specValidationReason, hl, hq, hq0, hst]
          · by_cases hrx : d.requires_prescription = true
            · cases hru : rxUpper prescription_ref with
              | none =>
                simp [place_order, specValidationReason, hl, hq, hq0, hst, hrx, hru]
              | some rr =>
                by_cases hv : dictGetD store.prescriptions rr = true
                · simp [place_order, specValidationReason, hl, hq, hq0, hst,
                    hrx, hru, hv, commitOrder]
                · simp [place_order, specValidationReason, hl, hq, hq0, hst,
                    hrx, hru, hv]
            · simp [place_order, specValidationReason, hl, hq, hq0, hst, hrx,
                commitOrder]
  exact ⟨key.1, key.2, rfl, rfl⟩

/-- C2: when every validation step passes (`order_placed = true`, with
the matched entry and converted quantity named by the hypotheses),
`place_order` returns the generated id, stores under it an order with
status "Processing" and the requested quantity, decrements the matched
medication's stock by exactly that quantity, and a subsequent
`check_order_status` on the returned id reports the order found with
status "Processing" and that quantity.  In particular the order of 2
"Amoxicillin 250mg Capsules" with prescription "RX12345" succeeds and
moves that stock from 50 to 48. -/
theorem place_order_success_creates_order
    (store : Store) (medication_name : String) (quantity : PyQty)
    (prescription_ref : Option String) (new_order_id now : String)
    (found : String) (d : InvData) (qi : Int)
    (hl : entityLookup medication_name store.inventory = some (found, d))
    (hq : pyIntConv quantity = some qi)
    (h : (place_order store medication_name quantity prescription_ref
            new_order_id now).1.order_placed = true) :
    let store2 := (place_order store medication_name quantity prescription_ref
      new_order_id now).2
    let oid := pyUpper new_order_id
    let st : String := "Processing"
    (place_order store medication_name quantity prescription_ref
        new_order_id now).1.order_id = some oid ∧
    dictGet store2.orders oid =
      some ⟨found, qi, rxUpper prescription_ref, st, now⟩ ∧
    dictGet store.inventory found = some d ∧
    dictGet store2.inventory found = some { d with stock := d.stock - qi } ∧
    (check_order_status store2.orders oid).status_found = true ∧
    (check_order_status store2.orders oid).feedback =
      s!"Order {oid} Status: {st}. Placed for {qi}x \x27{found}\x27." ∧
    (place_order mockStore "Amoxicillin 250mg Capsules" (PyQty.int 2)
        (some ("RX12345")) new_order_id now).1.order_placed = true ∧
    dictGet mockStore.inventory "Amoxicillin 250mg Capsules" =
      some ⟨50, true⟩ ∧
    dictGet (place_order mockStore "Amoxicillin 250mg Capsules" (PyQty.int 2)
        (some ("RX12345")) new_order_id now).2.inventory
      "Amoxicillin 250mg Capsules" = some ⟨48, true⟩ := by
  intro store2 oid st
  obtain ⟨f2, d2, q2, hl2, hq2, hpos, hle, heq⟩ :=
    place_order_placed store medication_name quantity prescription_ref
      new_order_id now h
  rw [hl] at hl2
  rw [hq] at hq2
  have hfd : found = f2 := congrArg Prod.fst (Option.some.inj hl2)
  have hdd : d = d2 := congrArg Prod.snd (Option.some.inj hl2)
  have hqq : qi = q2 := Option.some.inj hq2
  subst hfd
  subst hdd
  subst hqq
  have hkey := entityLookup_find?_key medication_name found d store.inventory hl
  have hstore2 : store2 =
      { store with
        orders := dictInsert (pyUpper new_order_id)
          ⟨found, qi, rxUpper prescription_ref, "Processing", now⟩
          store.orders,
        inventory := decStock found qi store.inventory } := by
    show (place_order store medication_name quantity prescription_ref
      new_order_id now).2 = _
    rw [heq, commitOrder_snd]
  have hins : dictGet store2.orders (pyUpper new_order_id) =
      some ⟨found, qi, rxUpper prescription_ref, "Processing", now⟩ := by
    rw [hstore2]
    exact dictGet_dictInsert_self _ _ _
  have hupp : pyUpper oid = oid := pyUpper_idem new_order_id
  refine ⟨?_, hins, ?_, ?_, ?_, ?_, rfl, rfl, rfl⟩
  · show (place_order store medication_name quantity prescription_ref
      new_order_id now).1.order_id = some oid
    rw [heq]
    rfl
  · simp [dictGet, hkey]
  · show dictGet store2.inventory found = some { d with stock := d.stock - qi }
    rw [hstore2]
    exact dictGet_decStock_self found qi store.inventory d hkey
  · show (check_order_status store2.orders oid).status_found = true
    simp only [check_order_status]
    rw [hupp,
      show dictGet store2.orders oid =
        some (⟨found, qi, rxUpper prescription_ref, "Processing", now⟩ : Order)
        from hins]
  · show (check_order_status store2.orders oid).feedback =
      s!"Order {oid} Status: {st}. Placed for {qi}x \x27{found}\x27."
    simp only [check_order_status]
    rw [hupp,
      show dictGet store2.orders oid =
        some (⟨found, qi, rxUpper prescription_ref, "Processing", now⟩ : Order)
        from hins]

/-- Witness for C2: the Amoxicillin instance with a concrete order id and
timestamp; every hypothesis is discharged by evaluation. -/
theorem place_order_success_creates_order_witness :
    (place_order mockStore "Amoxicillin 250mg Capsules" (PyQty.int 2)
        (some ("RX12345")) "a1b2c3d4" "2026-10-12T00:00:00").1.order_id =
      some ("A1B2C3D4") ∧
    dictGet (place_order mockStore "Amoxicillin 250mg Capsules" (PyQty.int 2)
        (some ("RX12345")) "a1b2c3d4" "2026-10-12T00:00:00").2.orders
      "A1B2C3D4" =
      some ⟨"Amoxicillin 250mg Capsules", 2, some ("RX12345"), "Processing",
        "2026-10-12T00:00:00"⟩ ∧
    dictGet mockStore.inventory "Amoxicillin 250mg Capsules" =
      some ⟨50, true⟩ ∧
    dictGet (place_order mockStore "Amoxicillin 250mg Capsules" (PyQty.int 2)
        (some ("RX12345")) "a1b2c3d4" "2026-10-12T00:00:00").2.inventory
      "Amoxicillin 250mg Capsules" = some ⟨48, true⟩ ∧
    (check_order_status (place_order mockStore "Amoxicillin 250mg Capsules"
        (PyQty.int 2) (some ("RX12345")) "a1b2c3d4"
        "2026-10-12T00:00:00").2.orders "A1B2C3D4").status_found = true ∧
    (check_order_status (place_order mockStore "Amoxicillin 250mg Capsules"
        (PyQty.int 2) (some ("RX12345")) "a1b2c3d4"
        "2026-10-12T00:00:00").2.orders "A1B2C3D4").feedback =
      "Order A1B2C3D4 Status: Processing. Placed for 2x \x27Amoxicillin 250mg Capsules\x27." ∧
    (place_order mockStore "Amoxicillin 250mg Capsules" (PyQty.int 2)
        (some ("RX12345")) "a1b2c3d4" "2026-10-12T00:00:00").1.order_placed =
      true ∧
    dictGet mockStore.inventory "Amoxicillin 250mg Capsules" =
      some ⟨50, true⟩ ∧
    dictGet (place_order mockStore "Amoxicillin 250mg Capsules" (PyQty.int 2)
        (some ("RX12345")) "a1b2c3d4" "2026-10-12T00:00:00").2.inventory
      "Amoxicillin 250mg Capsules" = some ⟨48, true⟩ :=
  place_order_success_creates_order mockStore "Amoxicillin 250mg Capsules"
    (PyQty.int 2) (some ("RX12345")) "a1b2c3d4" "2026-10-12T00:00:00"
    "Amoxicillin 250mg Capsules" ⟨50, true⟩ 2 (by decide) (by decide)
    (by decide)

/-- C7: each of the five handlers is a total function into its result
type — in this embedding every Python code path returns (the only
fallible operation, `int(quantity)`, is wrapped in `try/except` and
modelled by `pyIntConv`) — and semantic failure is signalled solely by
the `is_error` flag: for every input, `is_error` is set exactly when the
handler's own success indication is absent. -/
theorem handlers_total_error_flag :
    (∀ (inventory : List (String × InvData)) (q : String),
        ((check_stock inventory q).is_error = false ↔
          (check_stock inventory q).in_stock = some true)) ∧
    (∀ (infos : List (String × DrugInfo)) (q : String),
        (get_drug_info infos q).is_error = !(get_drug_info infos q).info_found) ∧
    (∀ (prescriptions : List (String × Bool)) (r : String),
        (verify_prescription prescriptions r).is_error =
          !(verify_prescription prescriptions r).verified) ∧
    (∀ (store : Store) (m : String) (q : PyQty) (r : Option String)
        (i t : String),
        (place_order store m q r i t).1.is_error =
          !(place_order store m q r i t).1.order_placed) ∧
    (∀ (orders : List (String × Order)) (i : String),
        (check_order_status orders i).is_error =
          !(check_order_status orders i).status_found) := by
  refine ⟨?_, ?_, ?_, ?_, ?_⟩
  · intro inventory q
    cases hl : entityLookup q inventory with
    | none => simp [check_stock, hl]
    | some fd =>
      obtain ⟨n, d⟩ := fd
      by_cases hs : d.stock > 0
      · simp [check_stock, hl, hs]
      · simp [check_stock, hl, hs]
  · intro infos q
    cases hl : entityLookup q infos with
    | none => simp [get_drug_info, hl]
    | some fd =>
      obtain ⟨n, d⟩ := fd
      simp [get_drug_info, hl]
  · intro prescriptions r
    by_cases hv : dictGetD prescriptions (pyUpper r) = true
    · simp [verify_prescription, hv]
    · simp [verify_prescription, hv]
  · intro store m q r i t
    cases hl : entityLookup m store.inventory with
    | none => simp [place_order, hl]
    | some fd =>
      obtain ⟨found, d⟩ := fd
      cases hq : pyIntConv q with
      | none => simp [place_order, hl, hq]
      | some qi =>
        by_cases hq0 : qi ≤ 0
        · simp [place_order, hl, hq, hq0]
        · by_cases hst : d.stock < qi
          · simp [place_order, hl, hq, hq0, hst]
          · by_cases hrx : d.requires_prescription = true
            · cases hru : rxUpper r with
              | none => simp [place_order, hl, hq, hq0, hst, hrx, hru]
              | some rr =>
                by_cases hv : dictGetD store.prescriptions rr = true
                · simp [place_order, hl, hq, hq0, hst, hrx, hru, hv,
                    commitOrder]
                · simp [place_order, hl, hq, hq0, hst, hrx, hru, hv]
            · simp [place_order, hl, hq, hq0, hst, hrx, commitOrder]
  · intro orders i
    cases hg : dictGet orders (pyUpper i) with
    | none => simp [check_order_status, hg]
    | some o => simp [check_order_status, hg]

/-- C8: every stock count of the initial catalog is non-negative, and
`place_order` — the only handler that mutates stock — preserves
non-negativity of every inventory entry: it only decrements after
checking `stock ≥ quantity` with a positive quantity. -/
theorem stock_nonneg_invariant :
    (∀ e ∈ mock_inventory, 0 ≤ e.2.stock) ∧
    (∀ (store : Store) (m : String) (q : PyQty) (r : Option String)
        (i t : String),
      (∀ e ∈ store.inventory, 0 ≤ e.2.stock) →
      ∀ e ∈ (place_order store m q r i t).2.inventory, 0 ≤ e.2.stock) := by
  constructor
  · decide
  · intro store m q r i t hinv e he
    by_cases hp : (place_order store m q r i t).1.order_placed = true
    · obtain ⟨found, d, qi, hl, hq, hpos, hle, heq⟩ :=
        place_order_placed store m q r i t hp
      rw [heq, commitOrder_snd] at he
      have he2 : e ∈ decStock found qi store.inventory := he
      rcases mem_decStock found qi store.inventory e he2 with hmem | ⟨d0, hf, hedef⟩
      · exact hinv e hmem
      · have hkey := entityLookup_find?_key m found d store.inventory hl
        rw [hkey] at hf
        have hd0 : d = d0 := congrArg Prod.snd (Option.some.inj hf)
        subst hd0
        rw [hedef]
        show 0 ≤ d.stock - qi
        omega
    · have hfalse : (place_order store m q r i t).1.order_placed = false := by
        simpa using hp
      obtain ⟨_, hst⟩ := place_order_not_placed store m q r i t hfalse
      rw [hst] at he
      exact hinv e he

/-- Witness for C8: non-negativity of the decremented Amoxicillin entry
after a successful concrete order, derived through the invariant. -/
theorem stock_nonneg_invariant_witness :
    0 ≤ (("Amoxicillin 250mg Capsules", (⟨48, true⟩ : InvData))).2.stock :=
  stock_nonneg_invariant.2 mockStore "Amoxicillin 250mg Capsules"
    (PyQty.int 2) (some ("RX12345")) "a1b2c3d4" "2026-10-12T00:00:00"
    (by decide) ("Amoxicillin 250mg Capsules", ⟨48, true⟩) (by decide)

/-- C10: for a matched medication that does not require a prescription,
`place_order` succeeds (given a valid quantity and sufficient stock)
whatever reference is supplied; the prescriptions table is never
consulted — the whole outcome is unchanged under swapping it for any
other table — and the uppercased reference, even an unknown or invalid
one, is stored on the created order. -/
theorem place_order_no_rx_ignores_prescriptions
    (store : Store) (m : String) (q : PyQty) (r : String) (i t : String)
    (found : String) (d : InvData) (qi : Int)
    (hl : entityLookup m store.inventory = some (found, d))
    (hrx : d.requires_prescription = false)
    (hq : pyIntConv q = some qi) (hpos : 0 < qi) (hle : qi ≤ d.stock)
    (hr : r ≠ "") :
    (place_order store m q (some r) i t).1.order_placed = true ∧
    dictGet (place_order store m q (some r) i t).2.orders (pyUpper i) =
      some ⟨found, qi, some (pyUpper r), "Processing", t⟩ ∧
    (∀ ps1 ps2 : List (String × Bool),
      (place_order { store with prescriptions := ps1 } m q (some r) i t).1 =
        (place_order { store with prescriptions := ps2 } m q (some r) i t).1 ∧
      (place_order { store with prescriptions := ps1 } m q (some r) i
          t).2.inventory =
        (place_order { store with prescriptions := ps2 } m q (some r) i
          t).2.inventory ∧
      (place_order { store with prescriptions := ps1 } m q (some r) i
          t).2.orders =
        (place_order { store with prescriptions := ps2 } m q (some r) i
          t).2.orders) := by
  have hru : rxUpper (some r) = some (pyUpper r) := by
    have : (r == "") = false := by
      rcases hb : r == "" with _ | _
      · rfl
      · exact absurd (beq_iff_eq.mp hb) hr
    simp [rxUpper, this]
  have hcommon : ∀ ps : List (String × Bool),
      place_order { store with prescriptions := ps } m q (some r) i t =
        commitOrder { store with prescriptions := ps } found qi
          (rxUpper (some r)) (pyUpper i) t := by
    intro ps
    have hl2 : entityLookup m ({ store with prescriptions := ps } :
        Store).inventory = some (found, d) := hl
    simp [place_order, hl2, hq, show ¬ qi ≤ 0 from by omega,
      show ¬ d.stock < qi from by omega, hrx]
  have h0 : place_order store m q (some r) i t =
      commitOrder store found qi (rxUpper (some r)) (pyUpper i) t :=
    hcommon store.prescriptions
  refine ⟨?_, ?_, ?_⟩
  · rw [h0]
    rfl
  · rw [h0, commitOrder_snd, hru]
    exact dictGet_dictInsert_self _ _ _
  · intro ps1 ps2
    rw [hcommon ps1, hcommon ps2]
    exact ⟨rfl, rfl, rfl⟩

/-- Witness for C10: a Paracetamol order carrying the bogus reference
"BOGUS" succeeds, stores the uppercased reference, and is insensitive to
replacing the prescriptions table. -/
theorem place_order_no_rx_ignores_prescriptions_witness :
    (place_order mockStore "Paracetamol 500mg Tablets" (PyQty.int 1)
        (some ("BOGUS")) "a1b2c3d4" "2026-10-12T00:00:00").1.order_placed =
      true ∧
    dictGet (place_order mockStore "Paracetamol 500mg Tablets" (PyQty.int 1)
        (some ("BOGUS")) "a1b2c3d4" "2026-10-12T00:00:00").2.orders
      (pyUpper "a1b2c3d4") =
      some ⟨"Paracetamol 500mg Tablets", 1, some (pyUpper "BOGUS"),
        "Processing", "2026-10-12T00:00:00"⟩ ∧
    (place_order { mockStore with prescriptions := [] }
        "Paracetamol 500mg Tablets" (PyQty.int 1) (some ("BOGUS")) "a1b2c3d4"
        "2026-10-12T00:00:00").1 =
      (place_order { mockStore with prescriptions := [("BOGUS", true)] }
        "Paracetamol 500mg Tablets" (PyQty.int 1) (some ("BOGUS")) "a1b2c3d4"
        "2026-10-12T00:00:00").1 := by
  have h := place_order_no_rx_ignores_prescriptions mockStore
    "Paracetamol 500mg Tablets" (PyQty.int 1) "BOGUS" "a1b2c3d4"
    "2026-10-12T00:00:00" "Paracetamol 500mg Tablets" ⟨100, false⟩ 1
    (by decide) (by decide) (by decide) (by decide) (by decide) (by decide)
  exact ⟨h.1, h.2.1, (h.2.2 [] [("BOGUS", true)]).1⟩
